import Mathlib

/-!
Verification of the database operation layer of the `rei` repository
(`packages/database/src/operation.ts`): the `DBOp` builder that turns a
logical target plus discriminators into a physical key-value operation
descriptor, and its cache synchronizer `updateCache`.

The target enumeration is a TypeScript numeric enum, so targets are
embedded as plain `Nat` codes with the enum's numbering; the constructor
is a switch on the code with no default case, modelled as an if-chain.
External collaborators (`constants.ts` key constants and key-derivation
helpers, the `compressBytes` transform, the cache container of
`manager.ts`) are not part of the given source; they are modelled from
the specification, as their doc comments note.
-/

namespace Rei

/-- Raw byte strings are modelled as lists of naturals (each entry a byte). -/
abbrev Bytes := List Nat

/-- A physical key is either a plain string constant or raw bytes,
mirroring the TypeScript `Buffer | string` key type of `DBOpData`. -/
inductive DBKey where
  | str (s : String)
  | buf (b : Bytes)
deriving DecidableEq, Repr

/-- A stored value is raw bytes, a string, or a structured (JSON-like)
object, mirroring the TypeScript `string | Buffer | object` value type. -/
inductive DBValue where
  | buf (b : Bytes)
  | str (s : String)
  | obj (o : String)
deriving DecidableEq, Repr

/-- Panic-class failures of the builder: dereferencing a missing
discriminator bundle or deriving a key from a missing discriminator
field both abort construction. -/
inductive DBError where
  | contractViolation
deriving DecidableEq, Repr

/-! ### Target codes

The `DBTarget` numeric enum of `operation.ts`, embedded as `Nat` codes
with the source's numbering (`Receipts = 100` restarts the count). -/

namespace DBTarget

abbrev Heads : Nat := 0
abbrev HeadHeader : Nat := 1
abbrev HeadBlock : Nat := 2
abbrev HashToNumber : Nat := 3
abbrev NumberToHash : Nat := 4
abbrev TotalDifficulty : Nat := 5
abbrev Body : Nat := 6
abbrev Header : Nat := 7
abbrev CliqueSignerStates : Nat := 8
abbrev CliqueVotes : Nat := 9
abbrev CliqueBlockSigners : Nat := 10
abbrev Receipts : Nat := 100
abbrev TxLookup : Nat := 101
abbrev BloomBits : Nat := 102
abbrev BloomBitsSectionCount : Nat := 103
abbrev SnapAccount : Nat := 104
abbrev SnapStorage : Nat := 105
abbrev SnapRoot : Nat := 106
abbrev SnapJournal : Nat := 107
abbrev SnapGenerator : Nat := 108
abbrev SnapRecovery : Nat := 109
abbrev SnapDisabled : Nat := 110
abbrev SnapSyncProgress : Nat := 111

end DBTarget

/-! ### Key constants and derivation helpers

Modelled from the spec: `constants.ts` is not part of the given source.
The spec pins only the shape of these rules (a fixed-key target returns a
predeclared constant byte string; a derived-key target concatenates a
target-specific base onto the encodings of its required discriminators,
and requesting a key without a required discriminator fails loudly).
Concrete base values are representative. -/

/-- Modelled from the spec: the fixed key constant of the `Heads` target. -/
def HEADS_KEY : DBKey := .str "heads"

/-- Modelled from the spec: the fixed key constant of `HeadHeader`. -/
def HEAD_HEADER_KEY : DBKey := .str "LastHeader"

/-- Modelled from the spec: the fixed key constant of `HeadBlock`. -/
def HEAD_BLOCK_KEY : DBKey := .str "LastBlock"

/-- Modelled from the spec: the fixed key constant of `CliqueSignerStates`. -/
def CLIQUE_SIGNER_STATES_KEY : DBKey := .str "CliqueSignerStates"

/-- Modelled from the spec: the fixed key constant of `CliqueVotes`. -/
def CLIQUE_VOTES_KEY : DBKey := .str "CliqueVotes"

/-- Modelled from the spec: the fixed key constant of `CliqueBlockSigners`. -/
def CLIQUE_BLOCK_SIGNERS_KEY : DBKey := .str "CliqueBlockSigners"

/-- Modelled from the spec: the fixed key constant of `BloomBitsSectionCount`. -/
def BLOOM_BITS_SECTION_COUNT : DBKey := .str "BloomBitsSectionCount"

/-- Modelled from the spec: the fixed key constant of `SnapRoot`. -/
def SNAP_ROOT_KEY : DBKey := .str "SnapRoot"

/-- Modelled from the spec: the fixed key constant of `SnapJournal`. -/
def SNAP_JOURNAL_KEY : DBKey := .str "SnapJournal"

/-- Modelled from the spec: the fixed key constant of `SnapGenerator`. -/
def SNAP_GENERATOR_KEY : DBKey := .str "SnapGenerator"

/-- Modelled from the spec: the fixed key constant of `SnapRecovery`. -/
def SNAP_RECOVERY_KEY : DBKey := .str "SnapRecovery"

/-- Modelled from the spec: the fixed key constant of `SnapDisabled`. -/
def SNAP_DISABLED_KEY : DBKey := .str "SnapDisabled"

/-- Modelled from the spec: the fixed key constant of `SnapSyncProgress`. -/
def SNAP_SYNC_PROGRESS_KEY : DBKey := .str "SnapSyncProgress"

/-- Modelled from the spec: the stable big-endian eight-byte encoding of a
block number used by the numeric key encoders. -/
def bufBE8 (n : Nat) : Bytes :=
  [n / 2 ^ 56 % 256, n / 2 ^ 48 % 256, n / 2 ^ 40 % 256, n / 2 ^ 32 % 256,
   n / 2 ^ 24 % 256, n / 2 ^ 16 % 256, n / 2 ^ 8 % 256, n % 256]

/-- Modelled from the spec: the stable big-endian two-byte encoding of a
bloom bit index. -/
def bufBE2 (n : Nat) : Bytes := [n / 2 ^ 8 % 256, n % 256]

/-- Modelled from the spec: `hashToNumberKey` of `constants.ts` — base byte
plus the block hash; fails loudly when the hash discriminator is missing. -/
def hashToNumberKey : Option Bytes → Except DBError DBKey
  | none => .error .contractViolation
  | some h => .ok (.buf (72 :: h))

/-- Modelled from the spec: `numberToHashKey` — base byte plus the
big-endian block-number bytes; fails loudly when the number is missing. -/
def numberToHashKey : Option Nat → Except DBError DBKey
  | none => .error .contractViolation
  | some n => .ok (.buf (104 :: bufBE8 n))

/-- Modelled from the spec: `tdKey` — base byte plus number bytes plus hash
bytes; fails loudly when either discriminator is missing. -/
def tdKey : Option Nat → Option Bytes → Except DBError DBKey
  | some n, some h => .ok (.buf (116 :: (bufBE8 n ++ h)))
  | _, _ => .error .contractViolation

/-- Modelled from the spec: `bodyKey` — base byte plus number bytes plus
hash bytes; fails loudly when either discriminator is missing. -/
def bodyKey : Option Nat → Option Bytes → Except DBError DBKey
  | some n, some h => .ok (.buf (98 :: (bufBE8 n ++ h)))
  | _, _ => .error .contractViolation

/-- Modelled from the spec: `headerKey` — base byte plus number bytes plus
hash bytes; fails loudly when either discriminator is missing. -/
def headerKey : Option Nat → Option Bytes → Except DBError DBKey
  | some n, some h => .ok (.buf (104 :: 100 :: (bufBE8 n ++ h)))
  | _, _ => .error .contractViolation

/-- Modelled from the spec: `receiptsKey` — base byte plus number bytes
plus hash bytes; fails loudly when either discriminator is missing. -/
def receiptsKey : Option Nat → Option Bytes → Except DBError DBKey
  | some n, some h => .ok (.buf (114 :: (bufBE8 n ++ h)))
  | _, _ => .error .contractViolation

/-- Modelled from the spec: `txLookupKey` — base byte plus the transaction
hash; fails loudly when the transaction hash is missing. -/
def txLookupKey : Option Bytes → Except DBError DBKey
  | none => .error .contractViolation
  | some t => .ok (.buf (108 :: t))

/-- Modelled from the spec: `bloomBitsKey` — base byte plus bit-index bytes
plus section-number bytes plus the section head hash; fails loudly when any
of the three discriminators is missing. -/
def bloomBitsKey : Option Nat → Option Nat → Option Bytes → Except DBError DBKey
  | some bit, some sec, some h => .ok (.buf (66 :: (bufBE2 bit ++ bufBE8 sec ++ h)))
  | _, _, _ => .error .contractViolation

/-- Modelled from the spec: `snapAccountKey` — base byte plus the account
hash; fails loudly when the account hash is missing. -/
def snapAccountKey : Option Bytes → Except DBError DBKey
  | none => .error .contractViolation
  | some a => .ok (.buf (97 :: a))

/-- Modelled from the spec: `snapStorageKey` — base byte plus account hash
plus storage hash; fails loudly when either is missing. -/
def snapStorageKey : Option Bytes → Option Bytes → Except DBError DBKey
  | some a, some s => .ok (.buf (111 :: (a ++ s)))
  | _, _ => .error .contractViolation

/-! ### The data model of `operation.ts` -/

/-- The optional-field discriminator bundle `DatabaseKey` of `operation.ts`:
a block number, hashes, and bloom-bit coordinates, each possibly absent. -/
structure DatabaseKey where
  blockNumber : Option Nat := none
  blockHash : Option Bytes := none
  txHash : Option Bytes := none
  bit : Option Nat := none
  «section» : Option Nat := none
  hash : Option Bytes := none
  accountHash : Option Bytes := none
  storageHash : Option Bytes := none
deriving DecidableEq, Repr

/-- `DBOpData` of `operation.ts`: the raw data of a database operation —
operation kind (absent for reads), key, encodings, and optional value. -/
structure DBOpData where
  type : Option String := none
  key : DBKey
  keyEncoding : String
  valueEncoding : String
  value : Option DBValue := none
deriving DecidableEq, Repr

/-- The `DBOp` descriptor: target code, operation data, and the optional
cache bucket name. -/
structure DBOp where
  operationTarget : Nat
  baseDBOp : DBOpData
  cacheString : Option String
deriving DecidableEq, Repr

/-- Dereferencing the non-null-asserted bundle `key!`: at runtime a missing
bundle aborts with a panic-class type error before any key is derived. -/
def requireKey : Option DatabaseKey → Except DBError DatabaseKey
  | none => .error .contractViolation
  | some k => .ok k

/-- The defaults the private `DBOp` constructor starts from before its
target switch: empty-string key, binary key and value encodings, no
operation kind and no value. Fixed-key targets install their constant on
top of this, derived-key targets dereference the bundle and derive the
key, `Heads` switches its value encoding to json, `BloomBitsSectionCount`
switches both encodings to none, and an unrecognized code falls through
leaving the defaults untouched. -/
def base : DBOpData := { key := .str "", keyEncoding := "binary", valueEncoding := "binary" }

/-- The target dispatch of the private `DBOp` constructor of
`operation.ts`, switching on the numeric target code exactly as the
source switch statement does. -/
def DBOp.new (operationTarget : Nat) (key : Option DatabaseKey) : Except DBError DBOp :=
  if operationTarget = DBTarget.Heads then
    .ok ⟨operationTarget, ⟨none, HEADS_KEY, "binary", "json", none⟩, none⟩
  else if operationTarget = DBTarget.HeadHeader then
    .ok ⟨operationTarget, ⟨none, HEAD_HEADER_KEY, "binary", "binary", none⟩, none⟩
  else if operationTarget = DBTarget.HeadBlock then
    .ok ⟨operationTarget, ⟨none, HEAD_BLOCK_KEY, "binary", "binary", none⟩, none⟩
  else if operationTarget = DBTarget.HashToNumber then
    match requireKey key with
    | .error e => .error e
    | .ok k =>
      match hashToNumberKey k.blockHash with
      | .error e => .error e
      | .ok kb => .ok ⟨operationTarget, ⟨none, kb, "binary", "binary", none⟩, some "hashToNumber"⟩
  else if operationTarget = DBTarget.NumberToHash then
    match requireKey key with
    | .error e => .error e
    | .ok k =>
      match numberToHashKey k.blockNumber with
      | .error e => .error e
      | .ok kb => .ok ⟨operationTarget, ⟨none, kb, "binary", "binary", none⟩, some "numberToHash"⟩
  else if operationTarget = DBTarget.TotalDifficulty then
    match requireKey key with
    | .error e => .error e
    | .ok k =>
      match tdKey k.blockNumber k.blockHash with
      | .error e => .error e
      | .ok kb => .ok ⟨operationTarget, ⟨none, kb, "binary", "binary", none⟩, some "td"⟩
  else if operationTarget = DBTarget.Body then
    match requireKey key with
    | .error e => .error e
    | .ok k =>
      match bodyKey k.blockNumber k.blockHash with
      | .error e => .error e
      | .ok kb => .ok ⟨operationTarget, ⟨none, kb, "binary", "binary", none⟩, some "body"⟩
  else if operationTarget = DBTarget.Header then
    match requireKey key with
    | .error e => .error e
    | .ok k =>
      match headerKey k.blockNumber k.blockHash with
      | .error e => .error e
      | .ok kb => .ok ⟨operationTarget, ⟨none, kb, "binary", "binary", none⟩, some "header"⟩
  else if operationTarget = DBTarget.CliqueSignerStates then
    .ok ⟨operationTarget, ⟨none, CLIQUE_SIGNER_STATES_KEY, "binary", "binary", none⟩, none⟩
  else if operationTarget = DBTarget.CliqueVotes then
    .ok ⟨operationTarget, ⟨none, CLIQUE_VOTES_KEY, "binary", "binary", none⟩, none⟩
  else if operationTarget = DBTarget.CliqueBlockSigners then
    .ok ⟨operationTarget, ⟨none, CLIQUE_BLOCK_SIGNERS_KEY, "binary", "binary", none⟩, none⟩
  else if operationTarget = DBTarget.Receipts then
    match requireKey key with
    | .error e => .error e
    | .ok k =>
      match receiptsKey k.blockNumber k.blockHash with
      | .error e => .error e
      | .ok kb => .ok ⟨operationTarget, ⟨none, kb, "binary", "binary", none⟩, some "receipts"⟩
  else if operationTarget = DBTarget.TxLookup then
    match requireKey key with
    | .error e => .error e
    | .ok k =>
      match txLookupKey k.txHash with
      | .error e => .error e
      | .ok kb => .ok ⟨operationTarget, ⟨none, kb, "binary", "binary", none⟩, some "txLookup"⟩
  else if operationTarget = DBTarget.BloomBits then
    match requireKey key with
    | .error e => .error e
    | .ok k =>
      match bloomBitsKey k.bit k.«section» k.hash with
      | .error e => .error e
      | .ok kb => .ok ⟨operationTarget, ⟨none, kb, "binary", "binary", none⟩, none⟩
  else if operationTarget = DBTarget.BloomBitsSectionCount then
    .ok ⟨operationTarget, ⟨none, BLOOM_BITS_SECTION_COUNT, "none", "none", none⟩, none⟩
  else if operationTarget = DBTarget.SnapAccount then
    match requireKey key with
    | .error e => .error e
    | .ok k =>
      match snapAccountKey k.accountHash with
      | .error e => .error e
      | .ok kb => .ok ⟨operationTarget, ⟨none, kb, "binary", "binary", none⟩, some "snapAccount"⟩
  else if operationTarget = DBTarget.SnapStorage then
    match requireKey key with
    | .error e => .error e
    | .ok k =>
      match snapStorageKey k.accountHash k.storageHash with
      | .error e => .error e
      | .ok kb => .ok ⟨operationTarget, ⟨none, kb, "binary", "binary", none⟩, some "snapStorage"⟩
  else if operationTarget = DBTarget.SnapRoot then
    .ok ⟨operationTarget, ⟨none, SNAP_ROOT_KEY, "binary", "binary", none⟩, none⟩
  else if operationTarget = DBTarget.SnapJournal then
    .ok ⟨operationTarget, ⟨none, SNAP_JOURNAL_KEY, "binary", "binary", none⟩, none⟩
  else if operationTarget = DBTarget.SnapGenerator then
    .ok ⟨operationTarget, ⟨none, SNAP_GENERATOR_KEY, "binary", "binary", none⟩, none⟩
  else if operationTarget = DBTarget.SnapRecovery then
    .ok ⟨operationTarget, ⟨none, SNAP_RECOVERY_KEY, "binary", "binary", none⟩, none⟩
  else if operationTarget = DBTarget.SnapDisabled then
    .ok ⟨operationTarget, ⟨none, SNAP_DISABLED_KEY, "binary", "binary", none⟩, none⟩
  else if operationTarget = DBTarget.SnapSyncProgress then
    .ok ⟨operationTarget, ⟨none, SNAP_SYNC_PROGRESS_KEY, "binary", "binary", none⟩, none⟩
  else
    .ok ⟨operationTarget, base, none⟩

/-- `DBOp.get`: the read entry point — just the constructor, leaving the
operation kind unset. -/
def DBOp.get (operationTarget : Nat) (key : Option DatabaseKey) : Except DBError DBOp :=
  DBOp.new operationTarget key

/-- `DBOp.set`: the write entry point — constructs the descriptor, marks it
`put`, and stores the value, routed through the external `compressBytes`
transform (passed as a parameter, since `compress.ts` is outside the given
source) exactly when the target is `BloomBits`. -/
def DBOp.set (compressBytes : DBValue → DBValue) (operationTarget : Nat)
    (value : DBValue) (key : Option DatabaseKey) : Except DBError DBOp :=
  match DBOp.new operationTarget key with
  | .error e => .error e
  | .ok op =>
    if operationTarget = DBTarget.BloomBits then
      .ok { op with baseDBOp := { op.baseDBOp with type := some "put", value := some (compressBytes value) } }
    else
      .ok { op with baseDBOp := { op.baseDBOp with type := some "put", value := some value } }

/-- `DBOp.del`: the delete entry point — constructs the descriptor and
marks it `del`. -/
def DBOp.del (operationTarget : Nat) (key : Option DatabaseKey) : Except DBError DBOp :=
  match DBOp.new operationTarget key with
  | .error e => .error e
  | .ok op => .ok { op with baseDBOp := { op.baseDBOp with type := some "del" } }

/-! ### The cache container and synchronizer -/

/-- Modelled from the spec: one bucket of the cache container of
`manager.ts` — a key-to-bytes mapping supporting get, set and delete,
embedded as an association list. -/
abbrev SimpleCache := List (DBKey × Bytes)

/-- Modelled from the spec: bucket lookup. -/
def SimpleCache.get (c : SimpleCache) (k : DBKey) : Option Bytes :=
  (c.find? (fun p => p.1 = k)).map (fun p => p.2)

/-- Modelled from the spec: bucket insertion, replacing any previous
binding of the key. -/
def SimpleCache.set (c : SimpleCache) (k : DBKey) (v : Bytes) : SimpleCache :=
  (k, v) :: c.filter (fun p => p.1 ≠ k)

/-- Modelled from the spec: bucket eviction. -/
def SimpleCache.del (c : SimpleCache) (k : DBKey) : SimpleCache :=
  c.filter (fun p => p.1 ≠ k)

/-- The `CacheMap` of `manager.ts` as consumed by `operation.ts`: bucket
name to bucket, buckets possibly absent. -/
abbrev CacheMap := String → Option SimpleCache

/-- Pointwise bucket replacement: the functional rendering of mutating one
bucket of the container in place. -/
def setBucket (c : CacheMap) (name : String) (b : SimpleCache) : CacheMap :=
  fun s => if s = name then some b else c s

/-- `DBOp.updateCache` of `operation.ts`: when the descriptor names a cache
bucket and the container has it, a `put` with a raw byte-buffer value
stores the value under the key (a non-buffer value is skipped), a `del`
evicts the key, and any other kind aborts with the unsupported-operation
error; otherwise the call is a no-op. -/
def DBOp.updateCache (o : DBOp) (cacheMap : CacheMap) : Except String CacheMap :=
  match o.cacheString with
  | none => .ok cacheMap
  | some name =>
    match cacheMap name with
    | none => .ok cacheMap
    | some bucket =>
      if o.baseDBOp.type = some "put" then
        match o.baseDBOp.value with
        | some (.buf b) => .ok (setBucket cacheMap name (bucket.set o.baseDBOp.key b))
        | _ => .ok cacheMap
      else if o.baseDBOp.type = some "del" then
        .ok (setBucket cacheMap name (bucket.del o.baseDBOp.key))
      else
        .error "unsupported db operation on cache"

/-! ### Property-side vocabulary -/

/-- The codes of the closed `DBTarget` enumeration. -/
def validTargets : List Nat :=
  [0, 1, 2, 3, 4, 5, 6, 7, 8, 9, 10,
   100, 101, 102, 103, 104, 105, 106, 107, 108, 109, 110, 111]

/-- The derived-key targets: those whose key is a function of
discriminators rather than a predeclared constant. -/
def derivedTargets : List Nat := [3, 4, 5, 6, 7, 100, 101, 102, 104, 105]

/-- Whether a bundle carries every discriminator field the given
derived-key target's derivation rule requires (the table of the spec). -/
def requiredPresent (t : Nat) (k : DatabaseKey) : Bool :=
  if t = DBTarget.HashToNumber then k.blockHash.isSome
  else if t = DBTarget.NumberToHash then k.blockNumber.isSome
  else if t = DBTarget.TotalDifficulty then k.blockNumber.isSome && k.blockHash.isSome
  else if t = DBTarget.Body then k.blockNumber.isSome && k.blockHash.isSome
  else if t = DBTarget.Header then k.blockNumber.isSome && k.blockHash.isSome
  else if t = DBTarget.Receipts then k.blockNumber.isSome && k.blockHash.isSome
  else if t = DBTarget.TxLookup then k.txHash.isSome
  else if t = DBTarget.BloomBits then k.bit.isSome && k.«section».isSome && k.hash.isSome
  else if t = DBTarget.SnapAccount then k.accountHash.isSome
  else if t = DBTarget.SnapStorage then k.accountHash.isSome && k.storageHash.isSome
  else true

/-- The cache bucket name the constructor attaches to each target code:
the ten derived-key targets with a bucket get theirs, everything else
(fixed-key targets, `BloomBits`, and unrecognized codes) gets none. -/
def cacheOf (t : Nat) : Option String :=
  if t = DBTarget.HashToNumber then some "hashToNumber"
  else if t = DBTarget.NumberToHash then some "numberToHash"
  else if t = DBTarget.TotalDifficulty then some "td"
  else if t = DBTarget.Body then some "body"
  else if t = DBTarget.Header then some "header"
  else if t = DBTarget.Receipts then some "receipts"
  else if t = DBTarget.TxLookup then some "txLookup"
  else if t = DBTarget.SnapAccount then some "snapAccount"
  else if t = DBTarget.SnapStorage then some "snapStorage"
  else none

/-! ### Constructor equation lemmas -/

/-- The read entry point is exactly the private constructor. -/
theorem get_eq (t : Nat) (k : Option DatabaseKey) : DBOp.get t k = DBOp.new t k := rfl

/-- The write entry point relative to the private constructor: it marks
the descriptor `put` and stores the (possibly compressed) value. -/
theorem set_eq (c : DBValue → DBValue) (t : Nat) (v : DBValue) (k : Option DatabaseKey) :
    DBOp.set c t v k = (DBOp.new t k).map (fun op =>
      { op with
        baseDBOp :=
          { op.baseDBOp with
            type := some "put"
            value := some (if t = DBTarget.BloomBits then c v else v) } }) := by
  cases h : DBOp.new t k <;> simp only [DBOp.set, h, Except.map] <;> split_ifs <;> rfl

/-- The delete entry point relative to the private constructor: it marks
the descriptor `del` and leaves everything else alone. -/
theorem del_eq (t : Nat) (k : Option DatabaseKey) :
    DBOp.del t k = (DBOp.new t k).map (fun op =>
      { op with baseDBOp := { op.baseDBOp with type := some "del" } }) := by
  cases h : DBOp.new t k <;> simp only [DBOp.del, h, Except.map]

/-- A code outside the closed enumeration falls through every switch case
and keeps the constructor defaults. -/
theorem new_outside (t : Nat) (h : t ∉ validTargets) (k : Option DatabaseKey) :
    DBOp.new t k = .ok ⟨t, base, none⟩ := by
  simp only [validTargets, List.mem_cons, List.not_mem_nil, or_false] at h
  push_neg at h
  obtain ⟨h0, h1, h2, h3, h4, h5, h6, h7, h8, h9, h10,
    g0, g1, g2, g3, g4, g5, g6, g7, g8, g9, g10, g11⟩ := h
  unfold DBOp.new
  simp [h0, h1, h2, h3, h4, h5, h6, h7, h8, h9, h10,
    g0, g1, g2, g3, g4, g5, g6, g7, g8, g9, g10, g11]

/-- Master characterization of a successful construction: the descriptor
records its target, has no operation kind and no value yet, carries the
target's cache bucket, and has the target's key and value encodings. -/
theorem new_ok_inv (t : Nat) (k : Option DatabaseKey) (o : DBOp)
    (h : DBOp.new t k = .ok o) :
    o.operationTarget = t ∧
    o.baseDBOp.type = none ∧
    o.baseDBOp.value = none ∧
    o.cacheString = cacheOf t ∧
    o.baseDBOp.keyEncoding = (if t = DBTarget.BloomBitsSectionCount then "none" else "binary") ∧
    o.baseDBOp.valueEncoding =
      (if t = DBTarget.Heads then "json"
       else if t = DBTarget.BloomBitsSectionCount then "none" else "binary") := by
  by_cases hv : t ∈ validTargets
  · simp only [validTargets, List.mem_cons, List.not_mem_nil, or_false] at hv
    rcases hv with rfl | rfl | rfl | rfl | rfl | rfl | rfl | rfl | rfl | rfl | rfl |
      rfl | rfl | rfl | rfl | rfl | rfl | rfl | rfl | rfl | rfl | rfl | rfl <;>
      rcases k with _ | dk <;> simp [DBOp.new] at h <;>
      (repeat' split at h) <;> (try simp at h) <;>
      (subst h; simp [cacheOf, base])
  · rw [new_outside t hv k] at h
    have hb : o = ⟨t, base, none⟩ := by
      injection h with h
      exact h.symm
    subst hb
    simp only [validTargets, List.mem_cons, List.not_mem_nil, or_false] at hv
    push_neg at hv
    obtain ⟨h0, h1, h2, h3, h4, h5, h6, h7, h8, h9, h10,
      g0, g1, g2, g3, g4, g5, g6, g7, g8, g9, g10, g11⟩ := hv
    simp [cacheOf, base, h0, h3, h4, h5, h6, h7, g0, g1, g3, g4, g5]

/-- When the private constructor aborts, all three entry points abort
with the same failure. -/
theorem all_entry_error (t : Nat) (k : Option DatabaseKey)
    (hn : DBOp.new t k = .error .contractViolation) :
    DBOp.get t k = .error .contractViolation ∧
    DBOp.del t k = .error .contractViolation ∧
    ∀ c v, DBOp.set c t v k = .error .contractViolation := by
  refine ⟨hn, ?_, ?_⟩
  · rw [del_eq, hn]; rfl
  · intro c v; rw [set_eq, hn]; rfl

/-! ### Cache bucket lemmas -/

/-- Storing a value in a bucket makes it retrievable under its key. -/
theorem SimpleCache.get_set (l : SimpleCache) (k : DBKey) (v : Bytes) :
    (l.set k v).get k = some v := by
  simp [SimpleCache.get, SimpleCache.set, List.find?]

/-- Evicting a key removes every entry for it. -/
theorem SimpleCache.get_del (l : SimpleCache) (k : DBKey) :
    (l.del k).get k = none := by
  induction l with
  | nil => rfl
  | cons p l ih =>
    by_cases hp : p.1 = k
    · simpa [SimpleCache.del, hp] using ih
    · simpa [SimpleCache.del, SimpleCache.get, List.find?, hp] using ih

/-- Retrieval from a bucket of another name is unaffected by a bucket
replacement. -/
theorem setBucket_other (c : CacheMap) (name s : String) (b : SimpleCache)
    (h : s ≠ name) : setBucket c name b s = c s := by
  simp [setBucket, h]

/-- For a derived-key target, a bundle missing a required discriminator
makes the private constructor abort. -/
theorem new_missing_error (t : Nat) (ht : t ∈ derivedTargets)
    (k : Option DatabaseKey)
    (hmiss : ∀ dk, k = some dk → requiredPresent t dk = false) :
    DBOp.new t k = .error .contractViolation := by
  simp only [derivedTargets, List.mem_cons, List.not_mem_nil, or_false] at ht
  rcases ht with rfl | rfl | rfl | rfl | rfl | rfl | rfl | rfl | rfl | rfl
  · rcases k with _ | dk
    · rfl
    · have hm := hmiss dk rfl
      simp [requiredPresent] at hm
      cases hbh : dk.blockHash with
      | none => simp [DBOp.new, requireKey, hashToNumberKey, hbh]
      | some b => rw [hbh] at hm; simp at hm
  · rcases k with _ | dk
    · rfl
    · have hm := hmiss dk rfl
      simp [requiredPresent] at hm
      cases hbn : dk.blockNumber with
      | none => simp [DBOp.new, requireKey, numberToHashKey, hbn]
      | some n => rw [hbn] at hm; simp at hm
  · rcases k with _ | dk
    · rfl
    · have hm := hmiss dk rfl
      simp [requiredPresent] at hm
      cases hbn : dk.blockNumber with
      | none => simp [DBOp.new, requireKey, tdKey, hbn]
      | some n =>
        cases hbh : dk.blockHash with
        | none => simp [DBOp.new, requireKey, tdKey, hbn, hbh]
        | some b => rw [hbn, hbh] at hm; simp at hm
  · rcases k with _ | dk
    · rfl
    · have hm := hmiss dk rfl
      simp [requiredPresent] at hm
      cases hbn : dk.blockNumber with
      | none => simp [DBOp.new, requireKey, bodyKey, hbn]
      | some n =>
        cases hbh : dk.blockHash with
        | none => simp [DBOp.new, requireKey, bodyKey, hbn, hbh]
        | some b => rw [hbn, hbh] at hm; simp at hm
  · rcases k with _ | dk
    · rfl
    · have hm := hmiss dk rfl
      simp [requiredPresent] at hm
      cases hbn : dk.blockNumber with
      | none => simp [DBOp.new, requireKey, headerKey, hbn]
      | some n =>
        cases hbh : dk.blockHash with
        | none => simp [DBOp.new, requireKey, headerKey, hbn, hbh]
        | some b => rw [hbn, hbh] at hm; simp at hm
  · rcases k with _ | dk
    · rfl
    · have hm := hmiss dk rfl
      simp [requiredPresent] at hm
      cases hbn : dk.blockNumber with
      | none => simp [DBOp.new, requireKey, receiptsKey, hbn]
      | some n =>
        cases hbh : dk.blockHash with
        | none => simp [DBOp.new, requireKey, receiptsKey, hbn, hbh]
        | some b => rw [hbn, hbh] at hm; simp at hm
  · rcases k with _ | dk
    · rfl
    · have hm := hmiss dk rfl
      simp [requiredPresent] at hm
      cases hth : dk.txHash with
      | none => simp [DBOp.new, requireKey, txLookupKey, hth]
      | some b => rw [hth] at hm; simp at hm
  · rcases k with _ | dk
    · rfl
    · have hm := hmiss dk rfl
      simp [requiredPresent] at hm
      cases hbit : dk.bit with
      | none => simp [DBOp.new, requireKey, bloomBitsKey, hbit]
      | some bit =>
        cases hsec : dk.«section» with
        | none => simp [DBOp.new, requireKey, bloomBitsKey, hbit, hsec]
        | some sec =>
          cases hh : dk.hash with
          | none => simp [DBOp.new, requireKey, bloomBitsKey, hbit, hsec, hh]
          | some b => rw [hbit, hsec, hh] at hm; simp at hm
  · rcases k with _ | dk
    · rfl
    · have hm := hmiss dk rfl
      simp [requiredPresent] at hm
      cases hah : dk.accountHash with
      | none => simp [DBOp.new, requireKey, snapAccountKey, hah]
      | some b => rw [hah] at hm; simp at hm
  · rcases k with _ | dk
    · rfl
    · have hm := hmiss dk rfl
      simp [requiredPresent] at hm
      cases hah : dk.accountHash with
      | none => simp [DBOp.new, requireKey, snapStorageKey, hah]
      | some a =>
        cases hsh : dk.storageHash with
        | none => simp [DBOp.new, requireKey, snapStorageKey, hah, hsh]
        | some b => rw [hah, hsh] at hm; simp at hm

/-! ### Claim theorems -/

/-- C1: for every derived-key target (HashToNumber, NumberToHash,
TotalDifficulty, Body, Header, Receipts, TxLookup, BloomBits,
SnapAccount, SnapStorage), constructing an operation through get, set or
del while the bundle omits any discriminator required by that target's
derivation rule (or while the bundle itself is omitted) aborts with the
contract-violation failure: no descriptor keyed on partial or default
data is ever returned. -/
theorem missing_discriminator_fails (t : Nat) (ht : t ∈ derivedTargets)
    (k : Option DatabaseKey)
    (hmiss : ∀ dk, k = some dk → requiredPresent t dk = false) :
    DBOp.get t k = .error .contractViolation ∧
    DBOp.del t k = .error .contractViolation ∧
    ∀ c v, DBOp.set c t v k = .error .contractViolation :=
  all_entry_error t k (new_missing_error t ht k hmiss)

/-- C1 witness: HashToNumber with an empty bundle (the block hash
missing) fails on every entry point. -/
theorem missing_discriminator_fails_witness :
    (DBTarget.HashToNumber ∈ derivedTargets) ∧
    (requiredPresent DBTarget.HashToNumber {} = false) ∧
    (DBOp.get DBTarget.HashToNumber (some {}) = .error .contractViolation) ∧
    (DBOp.del DBTarget.HashToNumber (some {}) = .error .contractViolation) ∧
    (DBOp.set (fun x => x) DBTarget.HashToNumber (.buf [1]) (some {}) =
      .error .contractViolation) := by
  have h := missing_discriminator_fails DBTarget.HashToNumber (by decide) (some {})
    (fun dk hdk => by rw [← Option.some.inj hdk]; decide)
  exact ⟨by decide, by decide, h.1, h.2.1, h.2.2 (fun x => x) (.buf [1])⟩

/-- C9: every fixed-key target (Heads, HeadHeader, HeadBlock,
CliqueSignerStates, CliqueVotes, CliqueBlockSigners,
BloomBitsSectionCount, SnapRoot, SnapJournal, SnapGenerator,
SnapRecovery, SnapDisabled, SnapSyncProgress) derives its predeclared
constant key for every discriminator bundle passed, including none: the
bundle is ignored. -/
theorem fixed_key_constants (k : Option DatabaseKey) :
    (DBOp.get DBTarget.Heads k).map (fun o => o.baseDBOp.key) = .ok HEADS_KEY ∧
    (DBOp.get DBTarget.HeadHeader k).map (fun o => o.baseDBOp.key) = .ok HEAD_HEADER_KEY ∧
    (DBOp.get DBTarget.HeadBlock k).map (fun o => o.baseDBOp.key) = .ok HEAD_BLOCK_KEY ∧
    (DBOp.get DBTarget.CliqueSignerStates k).map (fun o => o.baseDBOp.key) = .ok CLIQUE_SIGNER_STATES_KEY ∧
    (DBOp.get DBTarget.CliqueVotes k).map (fun o => o.baseDBOp.key) = .ok CLIQUE_VOTES_KEY ∧
    (DBOp.get DBTarget.CliqueBlockSigners k).map (fun o => o.baseDBOp.key) = .ok CLIQUE_BLOCK_SIGNERS_KEY ∧
    (DBOp.get DBTarget.BloomBitsSectionCount k).map (fun o => o.baseDBOp.key) = .ok BLOOM_BITS_SECTION_COUNT ∧
    (DBOp.get DBTarget.SnapRoot k).map (fun o => o.baseDBOp.key) = .ok SNAP_ROOT_KEY ∧
    (DBOp.get DBTarget.SnapJournal k).map (fun o => o.baseDBOp.key) = .ok SNAP_JOURNAL_KEY ∧
    (DBOp.get DBTarget.SnapGenerator k).map (fun o => o.baseDBOp.key) = .ok SNAP_GENERATOR_KEY ∧
    (DBOp.get DBTarget.SnapRecovery k).map (fun o => o.baseDBOp.key) = .ok SNAP_RECOVERY_KEY ∧
    (DBOp.get DBTarget.SnapDisabled k).map (fun o => o.baseDBOp.key) = .ok SNAP_DISABLED_KEY ∧
    (DBOp.get DBTarget.SnapSyncProgress k).map (fun o => o.baseDBOp.key) = .ok SNAP_SYNC_PROGRESS_KEY :=
  ⟨rfl, rfl, rfl, rfl, rfl, rfl, rfl, rfl, rfl, rfl, rfl, rfl, rfl⟩

/-- C8: every constructed descriptor gives `Heads` a binary key encoding
with a json (structured) value encoding, gives `BloomBitsSectionCount`
key and value encoding "none" — the only target whose key encoding is
not binary — and gives every other target binary key and value
encodings. -/
theorem encoding_assignment (t : Nat) (k : Option DatabaseKey) (o : DBOp)
    (h : DBOp.get t k = .ok o ∨ DBOp.del t k = .ok o ∨
      ∃ c v, DBOp.set c t v k = .ok o) :
    (t = DBTarget.Heads →
      o.baseDBOp.keyEncoding = "binary" ∧ o.baseDBOp.valueEncoding = "json") ∧
    (t = DBTarget.BloomBitsSectionCount →
      o.baseDBOp.keyEncoding = "none" ∧ o.baseDBOp.valueEncoding = "none") ∧
    (t ≠ DBTarget.Heads → t ≠ DBTarget.BloomBitsSectionCount →
      o.baseDBOp.keyEncoding = "binary" ∧ o.baseDBOp.valueEncoding = "binary") ∧
    (o.baseDBOp.keyEncoding ≠ "binary" → t = DBTarget.BloomBitsSectionCount) := by
  have hexists : ∃ op, DBOp.new t k = .ok op ∧
      op.baseDBOp.keyEncoding = o.baseDBOp.keyEncoding ∧
      op.baseDBOp.valueEncoding = o.baseDBOp.valueEncoding := by
    rcases h with h | h | ⟨c, v, h⟩
    · exact ⟨o, h, rfl, rfl⟩
    · rw [del_eq] at h
      cases hn : DBOp.new t k with
      | error e => rw [hn] at h; exact absurd h (by simp [Except.map])
      | ok op =>
        rw [hn] at h
        simp [Except.map] at h
        subst h
        exact ⟨op, rfl, rfl, rfl⟩
    · rw [set_eq] at h
      cases hn : DBOp.new t k with
      | error e => rw [hn] at h; exact absurd h (by simp [Except.map])
      | ok op =>
        rw [hn] at h
        simp [Except.map] at h
        subst h
        exact ⟨op, rfl, rfl, rfl⟩
  obtain ⟨op, hn, hke', hve'⟩ := hexists
  obtain ⟨-, -, -, -, hke, hve⟩ := new_ok_inv t k op hn
  rw [hke'] at hke
  rw [hve'] at hve
  refine ⟨?_, ?_, ?_, ?_⟩
  · intro ht; subst ht; simp at hke hve; exact ⟨hke, hve⟩
  · intro ht; subst ht; simp at hke hve; exact ⟨hke, hve⟩
  · intro h1 h2; rw [if_neg h2] at hke; rw [if_neg h1, if_neg h2] at hve; exact ⟨hke, hve⟩
  · intro hne
    by_contra h103
    rw [if_neg h103] at hke
    exact hne hke

/-- C8 witness: at the concrete targets Heads, BloomBitsSectionCount and
Header, the encoding assignment evaluates as the theorem states. -/
theorem encoding_assignment_witness :
    (DBOp.get DBTarget.Heads none =
      .ok ⟨DBTarget.Heads, ⟨none, HEADS_KEY, "binary", "json", none⟩, none⟩) ∧
    (DBOp.get DBTarget.BloomBitsSectionCount none =
      .ok ⟨DBTarget.BloomBitsSectionCount, ⟨none, BLOOM_BITS_SECTION_COUNT, "none", "none", none⟩, none⟩) ∧
    ("binary" = "binary" ∧ "json" = "json") ∧
    ("none" = "none" ∧ "none" = "none") :=
  ⟨rfl, rfl,
    encoding_assignment DBTarget.Heads none
      ⟨DBTarget.Heads, ⟨none, HEADS_KEY, "binary", "json", none⟩, none⟩ (.inl rfl) |>.1 rfl,
    encoding_assignment DBTarget.BloomBitsSectionCount none
      ⟨DBTarget.BloomBitsSectionCount, ⟨none, BLOOM_BITS_SECTION_COUNT, "none", "none", none⟩, none⟩
      (.inl rfl) |>.2.1 rfl⟩

/-- C2: construction is deterministic — building the same operation for
the same target and discriminator bundle twice yields identical
descriptors, and the derived key, both encodings and the cache bucket
agree across the get, set and del entry points for the same (target,
bundle) pair. -/
theorem key_derivation_deterministic (c : DBValue → DBValue) (t : Nat)
    (v : DBValue) (k : Option DatabaseKey) :
    DBOp.get t k = DBOp.get t k ∧
    DBOp.set c t v k = DBOp.set c t v k ∧
    DBOp.del t k = DBOp.del t k ∧
    (∀ o₁ o₂ o₃, DBOp.get t k = .ok o₁ → DBOp.set c t v k = .ok o₂ →
      DBOp.del t k = .ok o₃ →
      (o₁.baseDBOp.key = o₂.baseDBOp.key ∧ o₂.baseDBOp.key = o₃.baseDBOp.key) ∧
      (o₁.baseDBOp.keyEncoding = o₂.baseDBOp.keyEncoding ∧
        o₂.baseDBOp.keyEncoding = o₃.baseDBOp.keyEncoding) ∧
      (o₁.baseDBOp.valueEncoding = o₂.baseDBOp.valueEncoding ∧
        o₂.baseDBOp.valueEncoding = o₃.baseDBOp.valueEncoding) ∧
      (o₁.cacheString = o₂.cacheString ∧ o₂.cacheString = o₃.cacheString)) := by
  refine ⟨rfl, rfl, rfl, ?_⟩
  intro o₁ o₂ o₃ h₁ h₂ h₃
  rw [get_eq] at h₁
  rw [set_eq] at h₂
  rw [del_eq] at h₃
  cases hn : DBOp.new t k with
  | error e =>
    rw [hn] at h₁
    exact absurd h₁ (by simp)
  | ok op =>
    rw [hn] at h₁ h₂ h₃
    simp [Except.map] at h₁ h₂ h₃
    subst h₁
    subst h₂
    subst h₃
    simp

/-- C2 witness: the cross-entry-point agreement evaluated at
NumberToHash with block number 42. -/
theorem key_derivation_deterministic_witness :
    (DBOp.get DBTarget.NumberToHash (some { blockNumber := some 42 }) =
      .ok ⟨DBTarget.NumberToHash,
        ⟨none, .buf [104, 0, 0, 0, 0, 0, 0, 0, 42], "binary", "binary", none⟩,
        some "numberToHash"⟩) ∧
    (DBOp.set (fun x => x) DBTarget.NumberToHash (.buf [170]) (some { blockNumber := some 42 }) =
      .ok ⟨DBTarget.NumberToHash,
        ⟨some "put", .buf [104, 0, 0, 0, 0, 0, 0, 0, 42], "binary", "binary", some (.buf [170])⟩,
        some "numberToHash"⟩) ∧
    (DBOp.del DBTarget.NumberToHash (some { blockNumber := some 42 }) =
      .ok ⟨DBTarget.NumberToHash,
        ⟨some "del", .buf [104, 0, 0, 0, 0, 0, 0, 0, 42], "binary", "binary", none⟩,
        some "numberToHash"⟩) ∧
    ((DBKey.buf [104, 0, 0, 0, 0, 0, 0, 0, 42] = .buf [104, 0, 0, 0, 0, 0, 0, 0, 42] ∧
      DBKey.buf [104, 0, 0, 0, 0, 0, 0, 0, 42] = .buf [104, 0, 0, 0, 0, 0, 0, 0, 42]) ∧
     ("binary" = "binary" ∧ "binary" = "binary") ∧
     ("binary" = "binary" ∧ "binary" = "binary") ∧
     (some "numberToHash" = some "numberToHash" ∧
      some "numberToHash" = some "numberToHash")) :=
  ⟨rfl, rfl, rfl,
    key_derivation_deterministic (fun x => x) DBTarget.NumberToHash (.buf [170])
      (some { blockNumber := some 42 }) |>.2.2.2
      ⟨DBTarget.NumberToHash,
        ⟨none, .buf [104, 0, 0, 0, 0, 0, 0, 0, 42], "binary", "binary", none⟩,
        some "numberToHash"⟩
      ⟨DBTarget.NumberToHash,
        ⟨some "put", .buf [104, 0, 0, 0, 0, 0, 0, 0, 42], "binary", "binary", some (.buf [170])⟩,
        some "numberToHash"⟩
      ⟨DBTarget.NumberToHash,
        ⟨some "del", .buf [104, 0, 0, 0, 0, 0, 0, 0, 42], "binary", "binary", none⟩,
        some "numberToHash"⟩
      rfl rfl rfl⟩

/-- C3: the write entry point stores `compressBytes value` on the
descriptor exactly when the target is BloomBits, and stores the
caller-supplied value unchanged for every other target. -/
theorem bloomBits_value_compressed (c : DBValue → DBValue) (t : Nat)
    (v : DBValue) (k : Option DatabaseKey) (o : DBOp)
    (h : DBOp.set c t v k = .ok o) :
    (t = DBTarget.BloomBits → o.baseDBOp.value = some (c v)) ∧
    (t ≠ DBTarget.BloomBits → o.baseDBOp.value = some v) := by
  rw [set_eq] at h
  cases hn : DBOp.new t k with
  | error e =>
    rw [hn] at h
    exact absurd h (by simp [Except.map])
  | ok op =>
    rw [hn] at h
    simp [Except.map] at h
    subst h
    constructor <;> intro ht <;> simp [ht]

/-- C3 witness: a BloomBits write holds the compressed value, a
NumberToHash write holds the value unchanged. -/
theorem bloomBits_value_compressed_witness :
    (DBOp.set (fun _ => .buf [9, 9]) DBTarget.BloomBits (.buf [1, 2, 3])
        (some { bit := some 3, «section» := some 7, hash := some [5] }) =
      .ok ⟨DBTarget.BloomBits,
        ⟨some "put", .buf [66, 0, 3, 0, 0, 0, 0, 0, 0, 0, 7, 5], "binary", "binary",
          some (.buf [9, 9])⟩, none⟩) ∧
    (some (DBValue.buf [9, 9]) = some (DBValue.buf [9, 9])) ∧
    (DBOp.set (fun _ => .buf [9, 9]) DBTarget.NumberToHash (.buf [1, 2, 3])
        (some { blockNumber := some 42 }) =
      .ok ⟨DBTarget.NumberToHash,
        ⟨some "put", .buf [104, 0, 0, 0, 0, 0, 0, 0, 42], "binary", "binary",
          some (.buf [1, 2, 3])⟩, some "numberToHash"⟩) ∧
    (some (DBValue.buf [1, 2, 3]) = some (.buf [1, 2, 3])) :=
  ⟨rfl,
    bloomBits_value_compressed (fun _ => .buf [9, 9]) DBTarget.BloomBits (.buf [1, 2, 3])
      (some { bit := some 3, «section» := some 7, hash := some [5] })
      ⟨DBTarget.BloomBits,
        ⟨some "put", .buf [66, 0, 3, 0, 0, 0, 0, 0, 0, 0, 7, 5], "binary", "binary",
          some (.buf [9, 9])⟩, none⟩ rfl |>.1 rfl,
    rfl,
    bloomBits_value_compressed (fun _ => .buf [9, 9]) DBTarget.NumberToHash (.buf [1, 2, 3])
      (some { blockNumber := some 42 })
      ⟨DBTarget.NumberToHash,
        ⟨some "put", .buf [104, 0, 0, 0, 0, 0, 0, 0, 42], "binary", "binary",
          some (.buf [1, 2, 3])⟩, some "numberToHash"⟩ rfl |>.2 (by decide)⟩

/-- C10: a target code outside the closed enumeration is not rejected:
all three entry points fall through the switch and return a descriptor
with the empty-string key, the default binary key and value encodings,
and no cache bucket. -/
theorem unknown_target_defaults (t : Nat) (ht : t ∉ validTargets)
    (k : Option DatabaseKey) :
    DBOp.get t k = .ok ⟨t, ⟨none, .str "", "binary", "binary", none⟩, none⟩ ∧
    DBOp.del t k = .ok ⟨t, ⟨some "del", .str "", "binary", "binary", none⟩, none⟩ ∧
    ∀ c v, DBOp.set c t v k = .ok ⟨t, ⟨some "put", .str "", "binary", "binary", some v⟩, none⟩ := by
  have hn := new_outside t ht k
  have ht102 : t ≠ DBTarget.BloomBits := by
    intro he
    exact ht (by simp [validTargets, he])
  refine ⟨hn, ?_, ?_⟩
  · rw [del_eq, hn]; rfl
  · intro c v
    rw [set_eq, hn]
    simp [Except.map, base, ht102]

/-- An empty cache container with no buckets configured. -/
def emptyCM : CacheMap := fun _ => none

/-- A cache container with exactly the hashToNumber bucket, empty. -/
def hashBucketCM : CacheMap := fun s => if s = "hashToNumber" then some [] else none

/-- A cache container with exactly the numberToHash bucket, empty. -/
def numBucketCM : CacheMap := fun s => if s = "numberToHash" then some [] else none

/-- C4: cache coherence round trip — for a target with a cache bucket
present in the container, synchronizing a write descriptor stores the
raw byte value under the derived key in that bucket, and synchronizing
the matching delete descriptor afterwards leaves the bucket with no
entry for that key. -/
theorem cache_write_delete_round_trip (c : DBValue → DBValue) (t : Nat)
    (d : DatabaseKey) (v : Bytes) (cm : CacheMap) (o od : DBOp) (B : String)
    (bkt : SimpleCache)
    (hset : DBOp.set c t (.buf v) (some d) = .ok o)
    (hdel : DBOp.del t (some d) = .ok od)
    (hB : o.cacheString = some B)
    (hbkt : cm B = some bkt) :
    ∃ cm₁, o.updateCache cm = .ok cm₁ ∧
      (∃ b₁, cm₁ B = some b₁ ∧ b₁.get o.baseDBOp.key = some v) ∧
      ∃ cm₂, od.updateCache cm₁ = .ok cm₂ ∧
        ∃ b₂, cm₂ B = some b₂ ∧ b₂.get o.baseDBOp.key = none := by
  rw [set_eq] at hset
  rw [del_eq] at hdel
  cases hn : DBOp.new t (some d) with
  | error e =>
    rw [hn] at hset
    exact absurd hset (by simp [Except.map])
  | ok op =>
    rw [hn] at hset hdel
    simp [Except.map] at hset hdel
    subst hset
    subst hdel
    have hcs : op.cacheString = some B := hB
    have ht102 : t ≠ DBTarget.BloomBits := by
      intro he
      subst he
      have hco := (new_ok_inv _ _ _ hn).2.2.2.1
      rw [hco] at hcs
      simp [cacheOf] at hcs
    refine ⟨setBucket cm B (bkt.set op.baseDBOp.key v), ?_,
      ⟨bkt.set op.baseDBOp.key v, ?_, ?_⟩,
      setBucket (setBucket cm B (bkt.set op.baseDBOp.key v)) B
        ((bkt.set op.baseDBOp.key v).del op.baseDBOp.key), ?_,
      (bkt.set op.baseDBOp.key v).del op.baseDBOp.key, ?_, ?_⟩
    · simp [DBOp.updateCache, hcs, hbkt, ht102]
    · simp [setBucket]
    · exact SimpleCache.get_set bkt op.baseDBOp.key v
    · simp [DBOp.updateCache, hcs, setBucket]
    · simp [setBucket]
    · exact SimpleCache.get_del (bkt.set op.baseDBOp.key v) op.baseDBOp.key

/-- C4 witness: writing hash bytes under NumberToHash with block number
42 stores them in the numberToHash bucket and the matching delete evicts
them. -/
theorem cache_write_delete_round_trip_witness :
    (DBOp.set (fun x => x) DBTarget.NumberToHash (.buf [170]) (some { blockNumber := some 42 }) =
      .ok ⟨DBTarget.NumberToHash,
        ⟨some "put", .buf [104, 0, 0, 0, 0, 0, 0, 0, 42], "binary", "binary", some (.buf [170])⟩,
        some "numberToHash"⟩) ∧
    (DBOp.del DBTarget.NumberToHash (some { blockNumber := some 42 }) =
      .ok ⟨DBTarget.NumberToHash,
        ⟨some "del", .buf [104, 0, 0, 0, 0, 0, 0, 0, 42], "binary", "binary", none⟩,
        some "numberToHash"⟩) ∧
    (numBucketCM "numberToHash" = some []) ∧
    ∃ cm₁,
      DBOp.updateCache
        ⟨DBTarget.NumberToHash,
          ⟨some "put", .buf [104, 0, 0, 0, 0, 0, 0, 0, 42], "binary", "binary", some (.buf [170])⟩,
          some "numberToHash"⟩ numBucketCM = .ok cm₁ ∧
      (∃ b₁, cm₁ "numberToHash" = some b₁ ∧
        b₁.get (.buf [104, 0, 0, 0, 0, 0, 0, 0, 42]) = some [170]) ∧
      ∃ cm₂,
        DBOp.updateCache
          ⟨DBTarget.NumberToHash,
            ⟨some "del", .buf [104, 0, 0, 0, 0, 0, 0, 0, 42], "binary", "binary", none⟩,
            some "numberToHash"⟩ cm₁ = .ok cm₂ ∧
        ∃ b₂, cm₂ "numberToHash" = some b₂ ∧
          b₂.get (.buf [104, 0, 0, 0, 0, 0, 0, 0, 42]) = none :=
  ⟨rfl, rfl, rfl,
    cache_write_delete_round_trip (fun x => x) DBTarget.NumberToHash
      { blockNumber := some 42 } [170] numBucketCM
      ⟨DBTarget.NumberToHash,
        ⟨some "put", .buf [104, 0, 0, 0, 0, 0, 0, 0, 42], "binary", "binary", some (.buf [170])⟩,
        some "numberToHash"⟩
      ⟨DBTarget.NumberToHash,
        ⟨some "del", .buf [104, 0, 0, 0, 0, 0, 0, 0, 42], "binary", "binary", none⟩,
        some "numberToHash"⟩
      "numberToHash" [] rfl rfl rfl rfl⟩

/-- C5 counterexample: a descriptor built by the read entry point whose
target has no cache bucket (Heads) makes the cache synchronizer a
silent no-op, not an unsupported-operation failure — refuting the claim
that every Read-kind invocation fails. -/
theorem read_descriptor_cache_noop_counterexample :
    (DBOp.get DBTarget.Heads none =
      .ok ⟨DBTarget.Heads, ⟨none, HEADS_KEY, "binary", "json", none⟩, none⟩) ∧
    DBOp.updateCache ⟨DBTarget.Heads, ⟨none, HEADS_KEY, "binary", "json", none⟩, none⟩ emptyCM =
      .ok emptyCM :=
  ⟨rfl, rfl⟩

/-- C5 amended: when the descriptor names a cache bucket and the
container has that bucket, a descriptor whose operation kind is neither
put nor del — in particular a Read descriptor, whose kind is unset —
fails with the unsupported-cache-operation error. -/
theorem unsupported_kind_with_bucket_fails (o : DBOp) (c : CacheMap) (B : String)
    (bkt : SimpleCache) (hB : o.cacheString = some B) (hc : c B = some bkt)
    (hput : o.baseDBOp.type ≠ some "put") (hdel : o.baseDBOp.type ≠ some "del") :
    o.updateCache c = .error "unsupported db operation on cache" := by
  simp [DBOp.updateCache, hB, hc, hput, hdel]

/-- C5 amended witness: a read descriptor for HashToNumber against a
container holding the hashToNumber bucket fails with the
unsupported-operation error. -/
theorem unsupported_kind_with_bucket_fails_witness :
    (DBOp.get DBTarget.HashToNumber (some { blockHash := some [1, 2] }) =
      .ok ⟨DBTarget.HashToNumber, ⟨none, .buf [72, 1, 2], "binary", "binary", none⟩,
        some "hashToNumber"⟩) ∧
    (hashBucketCM "hashToNumber" = some []) ∧
    DBOp.updateCache
      ⟨DBTarget.HashToNumber, ⟨none, .buf [72, 1, 2], "binary", "binary", none⟩,
        some "hashToNumber"⟩ hashBucketCM =
      .error "unsupported db operation on cache" :=
  ⟨rfl, rfl,
    unsupported_kind_with_bucket_fails
      ⟨DBTarget.HashToNumber, ⟨none, .buf [72, 1, 2], "binary", "binary", none⟩,
        some "hashToNumber"⟩ hashBucketCM "hashToNumber" [] rfl rfl
      (by decide) (by decide)⟩

/-- C6: synchronizing any write descriptor whose value is not a raw byte
buffer (for example the structured Heads value) leaves the cache
container entirely unchanged. -/
theorem nonbuffer_write_cache_unchanged (o : DBOp) (c : CacheMap)
    (hput : o.baseDBOp.type = some "put")
    (hnb : ∀ b : Bytes, o.baseDBOp.value ≠ some (.buf b)) :
    o.updateCache c = .ok c := by
  cases hcs : o.cacheString with
  | none => simp [DBOp.updateCache, hcs]
  | some name =>
    cases hcm : c name with
    | none => simp [DBOp.updateCache, hcs, hcm]
    | some bucket =>
      cases hv : o.baseDBOp.value with
      | none => simp [DBOp.updateCache, hcs, hcm, hput, hv]
      | some val =>
        cases val with
        | buf b => exact absurd hv (hnb b)
        | str s => simp [DBOp.updateCache, hcs, hcm, hput, hv]
        | obj x => simp [DBOp.updateCache, hcs, hcm, hput, hv]

/-- C6 witness: a Heads write carries a structured value and its
synchronization leaves the container unchanged. -/
theorem nonbuffer_write_cache_unchanged_witness :
    (DBOp.set (fun x => x) DBTarget.Heads (.obj "headPointers") none =
      .ok ⟨DBTarget.Heads,
        ⟨some "put", HEADS_KEY, "binary", "json", some (.obj "headPointers")⟩, none⟩) ∧
    DBOp.updateCache
      ⟨DBTarget.Heads, ⟨some "put", HEADS_KEY, "binary", "json", some (.obj "headPointers")⟩, none⟩
      hashBucketCM = .ok hashBucketCM :=
  ⟨rfl,
    nonbuffer_write_cache_unchanged
      ⟨DBTarget.Heads, ⟨some "put", HEADS_KEY, "binary", "json", some (.obj "headPointers")⟩, none⟩
      hashBucketCM rfl (fun b h => by simp at h)⟩

/-- C7: the cache synchronizer mutates at most the bucket its descriptor
names — it is a no-op for every operation kind when the descriptor has
no cache bucket or the named bucket is absent from the container, and
whenever it succeeds, every bucket other than the named one is left
exactly as it was. -/
theorem updateCache_frame (o : DBOp) (c : CacheMap) :
    (o.cacheString = none → o.updateCache c = .ok c) ∧
    (∀ B, o.cacheString = some B → c B = none → o.updateCache c = .ok c) ∧
    (∀ c', o.updateCache c = .ok c' → ∀ s, o.cacheString ≠ some s → c' s = c s) := by
  refine ⟨?_, ?_, ?_⟩
  · intro h
    simp [DBOp.updateCache, h]
  · intro B hB hcB
    simp [DBOp.updateCache, hB, hcB]
  · intro c' h s hs
    cases hcs : o.cacheString with
    | none =>
      simp [DBOp.updateCache, hcs] at h
      subst h
      rfl
    | some name =>
      have hsname : s ≠ name := fun he => hs (by rw [hcs, he])
      cases hcm : c name with
      | none =>
        simp [DBOp.updateCache, hcs, hcm] at h
        subst h
        rfl
      | some bucket =>
        by_cases hput : o.baseDBOp.type = some "put"
        · cases hv : o.baseDBOp.value with
          | none =>
            simp [DBOp.updateCache, hcs, hcm, hput, hv] at h
            subst h
            rfl
          | some val =>
            cases val with
            | buf b =>
              simp [DBOp.updateCache, hcs, hcm, hput, hv] at h
              subst h
              exact setBucket_other c name s _ hsname
            | str st =>
              simp [DBOp.updateCache, hcs, hcm, hput, hv] at h
              subst h
              rfl
            | obj x =>
              simp [DBOp.updateCache, hcs, hcm, hput, hv] at h
              subst h
              rfl
        · by_cases hdel : o.baseDBOp.type = some "del"
          · simp [DBOp.updateCache, hcs, hcm, hput, hdel] at h
            subst h
            exact setBucket_other c name s _ hsname
          · simp [DBOp.updateCache, hcs, hcm, hput, hdel] at h

/-- C7 witness: a BloomBits write descriptor (no cache bucket) and a
NumberToHash write against a container lacking its bucket both leave the
container unchanged. -/
theorem updateCache_frame_witness :
    (DBOp.cacheString ⟨DBTarget.BloomBits,
        ⟨some "put", .buf [66, 0, 3, 0, 0, 0, 0, 0, 0, 0, 7, 5], "binary", "binary",
          some (.buf [9])⟩, none⟩ = none ∧
      DBOp.updateCache ⟨DBTarget.BloomBits,
        ⟨some "put", .buf [66, 0, 3, 0, 0, 0, 0, 0, 0, 0, 7, 5], "binary", "binary",
          some (.buf [9])⟩, none⟩ hashBucketCM = .ok hashBucketCM) ∧
    (DBOp.cacheString ⟨DBTarget.NumberToHash,
        ⟨some "put", .buf [104, 0, 0, 0, 0, 0, 0, 0, 42], "binary", "binary",
          some (.buf [170])⟩, some "numberToHash"⟩ = some "numberToHash" ∧
      hashBucketCM "numberToHash" = none ∧
      DBOp.updateCache ⟨DBTarget.NumberToHash,
        ⟨some "put", .buf [104, 0, 0, 0, 0, 0, 0, 0, 42], "binary", "binary",
          some (.buf [170])⟩, some "numberToHash"⟩ hashBucketCM = .ok hashBucketCM) :=
  ⟨⟨rfl,
    (updateCache_frame ⟨DBTarget.BloomBits,
        ⟨some "put", .buf [66, 0, 3, 0, 0, 0, 0, 0, 0, 0, 7, 5], "binary", "binary",
          some (.buf [9])⟩, none⟩ hashBucketCM).1 rfl⟩,
   ⟨rfl, by decide,
    (updateCache_frame ⟨DBTarget.NumberToHash,
        ⟨some "put", .buf [104, 0, 0, 0, 0, 0, 0, 0, 42], "binary", "binary",
          some (.buf [170])⟩, some "numberToHash"⟩ hashBucketCM).2.1
      "numberToHash" rfl (by decide)⟩⟩

/-- C10 witness: target code 999 is outside the enumeration and all
three entry points return the default descriptor. -/
theorem unknown_target_defaults_witness :
    (999 ∉ validTargets) ∧
    (DBOp.get 999 none = .ok ⟨999, ⟨none, .str "", "binary", "binary", none⟩, none⟩) ∧
    (DBOp.set (fun x => x) 999 (.buf [1]) none =
      .ok ⟨999, ⟨some "put", .str "", "binary", "binary", some (.buf [1])⟩, none⟩) :=
  ⟨by decide,
    (unknown_target_defaults 999 (by decide) none).1,
    (unknown_target_defaults 999 (by decide) none).2.2 (fun x => x) (.buf [1])⟩

end Rei
